import Mathlib

/-!
Shallow embedding of the LeetCode profile-fetcher repository
(`leetcode_fetcher.py`, the CLI entry point, and `app.py`, the Streamlit
entry point).  JSON values are modelled by an inductive type whose numbers
are integers (the fields the program reads -- `count`, `ranking` -- are
integers in the API).  Python dictionaries are association lists, Python
exceptions are an explicit error type, and fallible Python code returns
`Except PyExc _` where an `Except.error` that escapes a function models an
uncaught Python exception propagating past that function.
-/

namespace LeetFetch

/-- JSON values (numbers modelled as integers). -/
inductive Json where
  | null : Json
  | bool (b : Bool) : Json
  | num (n : Int) : Json
  | str (s : String) : Json
  | arr (xs : List Json) : Json
  | obj (kvs : List (String × Json)) : Json

mutual

/-- Structural equality on JSON values (Python `==` on parsed JSON). -/
def Json.beq : Json → Json → Bool
  | .null, .null => true
  | .bool a, .bool c => a == c
  | .num a, .num c => a == c
  | .str a, .str c => a == c
  | .arr xs, .arr ys => Json.beqList xs ys
  | .obj xs, .obj ys => Json.beqObj xs ys
  | _, _ => false

def Json.beqList : List Json → List Json → Bool
  | [], [] => true
  | x :: xs, y :: ys => Json.beq x y && Json.beqList xs ys
  | _, _ => false

def Json.beqObj : List (String × Json) → List (String × Json) → Bool
  | [], [] => true
  | (k1, v1) :: xs, (k2, v2) :: ys =>
      k1 == k2 && Json.beq v1 v2 && Json.beqObj xs ys
  | _, _ => false

end

instance : BEq Json := ⟨Json.beq⟩

/-- Python exceptions that the embedded code can raise. -/
inductive PyExc where
  | valueError (msg : String) : PyExc
  | keyError (key : String) : PyExc
  | typeError (msg : String) : PyExc
  | attributeError (msg : String) : PyExc
deriving DecidableEq

/-- A Python dict with string keys, as returned by `fetch_user_data`. -/
abbrev PyDict := List (String × Json)

/-- An HTTP response: the status code and the result of `response.json()`
(`Except.error m` models `.json()` raising `ValueError` with message `m`,
i.e. a malformed body). -/
structure Response where
  status_code : Nat
  body : Except String Json

/-- First value bound to a key in an association list (Python dict lookup). -/
def lookup (kvs : List (String × Json)) (k : String) : Option Json :=
  (kvs.find? (fun p => p.1 == k)).map Prod.snd

/-- Python `k in j` for a string `k` (dict: key test; list: membership;
string: substring test; otherwise `TypeError`). -/
def pyContains (k : String) : Json → Except PyExc Bool
  | .obj kvs => .ok (lookup kvs k).isSome
  | .arr xs => .ok (xs.contains (.str k))
  | .str s => .ok (decide ((s.splitOn k).length > 1))
  | _ => .error (.typeError "argument is not iterable")

/-- Python `j[k]` for a string key `k`: dict lookup raising `KeyError` when
the key is missing, `TypeError` on non-dict values. -/
def pySubscript (j : Json) (k : String) : Except PyExc Json :=
  match j with
  | .obj kvs =>
      match lookup kvs k with
      | some v => .ok v
      | none => .error (.keyError k)
  | .arr _ => .error (.typeError "list indices must be integers")
  | .str _ => .error (.typeError "string indices must be integers")
  | _ => .error (.typeError "object is not subscriptable")

/-- Python dict subscript on an association list directly. -/
def dictSub (d : PyDict) (k : String) : Except PyExc Json :=
  match lookup d k with
  | some v => .ok v
  | none => .error (.keyError k)

/-- Python truthiness of a JSON value. -/
def pyTruthy : Json → Bool
  | .null => false
  | .bool b => b
  | .num n => n != 0
  | .str s => s != ""
  | .arr xs => !xs.isEmpty
  | .obj kvs => !kvs.isEmpty

/-- Python `j.get(k, default)` (only dicts have `.get`). -/
def pyGet (j : Json) (k : String) (dflt : Json) : Except PyExc Json :=
  match j with
  | .obj kvs => .ok ((lookup kvs k).getD dflt)
  | _ => .error (.attributeError "object has no attribute get")

/-- Python iteration over a JSON value: lists yield elements, dicts yield
their keys, strings yield one-character strings, the rest raise. -/
def pyIter : Json → Except PyExc (List Json)
  | .arr xs => .ok xs
  | .obj kvs => .ok (kvs.map (fun p => .str p.1))
  | .str s => .ok (s.toList.map (fun c => .str (String.mk [c])))
  | _ => .error (.typeError "object is not iterable")

/-- Coercion used by Python `sum` (ints and bools add; anything else is a
`TypeError`). -/
def pyToInt : Json → Except PyExc Int
  | .num n => .ok n
  | .bool b => .ok (if b then 1 else 0)
  | _ => .error (.typeError "unsupported operand type for +")

/-- `sum(item["count"] for item in items)`: left-to-right, the first
failing item raises. -/
def sumCounts : List Json → Except PyExc Int
  | [] => .ok 0
  | it :: rest => do
      let c ← pySubscript it "count"
      let n ← pyToInt c
      let s ← sumCounts rest
      pure (n + s)

/-- `[f(x) for x in xs]` over fallible `f`: left-to-right, the first
failing element raises. -/
def pyComprehension (f : Json → Except PyExc Json) :
    List Json → Except PyExc (List Json)
  | [] => .ok []
  | x :: xs => do
      let y ← f x
      let ys ← pyComprehension f xs
      pure (y :: ys)

/-- The elements of `xs` as Lean strings; `TypeError` on a non-string. -/
def asStrings : List Json → Except PyExc (List String)
  | [] => .ok []
  | .str s :: xs => do
      let ss ← asStrings xs
      pure (s :: ss)
  | _ :: _ => .error (.typeError "sequence item: expected str instance")

/-- Python `sep.join(xs)`: every element must be a string. -/
def pyJoinStrs (sep : String) (xs : List Json) : Except PyExc String := do
  let ss ← asStrings xs
  pure (String.intercalate sep ss)

/-- The `try:` block of `fetch_user_data` (both files), from
`data = response.json()` to the `return` of the success dict.  The two
files differ in one line only: `leetcode_fetcher.py` stores the badge
display names as a list (`joinBadges = false`) while `app.py` line 91
stores `", ".join(...) if badges else "None"` (`joinBadges = true`). -/
def fetch_body (joinBadges : Bool) (username : String) (resp : Response) :
    Except PyExc PyDict := do
  let data ←
    match resp.body with
    | .ok j => pure j
    | .error m => throw (.valueError m)
  let hasErrors ← pyContains "errors" data
  if hasErrors then
    let errs ← pySubscript data "errors"
    return [("username", .str username), ("error", errs)]
  else
    let d ← pySubscript data "data"
    let user_data ← pySubscript d "matchedUser"
    if !pyTruthy user_data then
      return [("username", .str username), ("error", .str "User not found.")]
    else
      let profile ← pySubscript user_data "profile"
      let ss ← pySubscript user_data "submitStats"
      let submissions ← pySubscript ss "acSubmissionNum"
      let badges ← pyGet user_data "badges" (.arr [])
      let ranking ← pySubscript profile "ranking"
      let items ← pyIter submissions
      let total ← sumCounts items
      let solved := Int.fdiv total 2
      if joinBadges then
        -- app.py: `", ".join([badge["displayName"] for badge in badges]) if badges else "None"`
        let badgesVal ←
          if pyTruthy badges then do
            let bitems ← pyIter badges
            let names ← pyComprehension (fun b => pySubscript b "displayName") bitems
            let s ← pyJoinStrs ", " names
            pure (Json.str s)
          else
            pure (Json.str "None")
        return [("username", .str username), ("ranking", ranking),
                ("problems_solved", .num solved), ("badges", badgesVal)]
      else
        -- leetcode_fetcher.py: `[badge["displayName"] for badge in badges]`
        let bitems ← pyIter badges
        let names ← pyComprehension (fun b => pySubscript b "displayName") bitems
        return [("username", .str username), ("ranking", ranking),
                ("problems_solved", .num solved), ("badges", .arr names)]

/-- Shared outer shape of `fetch_user_data`: the status check, then the
`try:` body with `except ValueError` turning a `ValueError` into the
`Invalid API response` failure dict; any other exception escapes. -/
def fetch_outer (joinBadges : Bool) (username : String) (resp : Response) :
    Except PyExc PyDict :=
  if resp.status_code ≠ 200 then
    .ok [("username", .str username),
         ("error", .str ("API error: " ++ toString resp.status_code))]
  else
    match fetch_body joinBadges username resp with
    | .ok d => .ok d
    | .error (.valueError m) =>
        .ok [("username", .str username),
             ("error", .str ("Invalid API response: " ++ m))]
    | .error e => .error e

/-- `fetch_user_data` of `leetcode_fetcher.py` (badges kept as a list). -/
def fetch_user_data (username : String) (resp : Response) :
    Except PyExc PyDict :=
  fetch_outer false username resp

/-- `fetch_user_data` of `app.py` (badges joined into a display string). -/
def fetch_user_data_app (username : String) (resp : Response) :
    Except PyExc PyDict :=
  fetch_outer true username resp

/-- The remote endpoint, as seen by one batch run: the response the POST
for a given username produces. -/
abbrev Oracle := String → Response

/-- The sequential batch loop of `fetch_all_users` (both files): append
the fetch result for each username in input order; an uncaught exception
from one fetch aborts the loop and propagates. -/
def runBatch (fetch : String → Except PyExc PyDict) :
    List String → Except PyExc (List PyDict)
  | [] => .ok []
  | u :: rest =>
      match fetch u with
      | .error e => .error e
      | .ok d =>
          match runBatch fetch rest with
          | .error e => .error e
          | .ok ds => .ok (d :: ds)

/-- `fetch_all_users` of `leetcode_fetcher.py`. -/
def fetch_all_users (oracle : Oracle) (usernames : List String) :
    Except PyExc (List PyDict) :=
  runBatch (fun u => fetch_user_data u (oracle u)) usernames

/-- `fetch_all_users` of `app.py` (same loop over the app fetcher). -/
def fetch_all_users_app (oracle : Oracle) (usernames : List String) :
    Except PyExc (List PyDict) :=
  runBatch (fun u => fetch_user_data_app u (oracle u)) usernames

/-- The usernames for which a network POST is issued when the batch loop
runs: every username up to and including the one whose fetch raises an
uncaught exception (the POST happens before the response is examined). -/
def calls_made (fetch : String → Except PyExc PyDict) :
    List String → List String
  | [] => []
  | u :: rest =>
      u :: (match fetch u with
            | .ok _ => calls_made fetch rest
            | .error _ => [])

/-- One row of the CLI table (`display_data` of `leetcode_fetcher.py`,
loop body): `[username, "Error", "-", "-"]` for a record carrying an
`error` key, otherwise `[username, ranking or "N/A", problems_solved,
", ".join(badges) if badges else "None"]`. -/
def render_row (user : PyDict) : Except PyExc (List Json) :=
  if (lookup user "error").isSome then do
    let u ← dictSub user "username"
    pure [u, .str "Error", .str "-", .str "-"]
  else do
    let u ← dictSub user "username"
    let r ← dictSub user "ranking"
    let s ← dictSub user "problems_solved"
    let b ← dictSub user "badges"
    let rankCell := if pyTruthy r then r else Json.str "N/A"
    let badgeCell ←
      if pyTruthy b then do
        let xs ← pyIter b
        let joined ← pyJoinStrs ", " xs
        pure (Json.str joined)
      else
        pure (Json.str "None")
    pure [u, rankCell, s, badgeCell]

/-- `display_data` of `leetcode_fetcher.py`: the rows added to the
PrettyTable, in the order the loop adds them (printing abstracted to the
row list; an exception while rendering a row propagates). -/
def display_data : List PyDict → Except PyExc (List (List Json))
  | [] => .ok []
  | user :: rest =>
      match render_row user with
      | .error e => .error e
      | .ok row =>
          match display_data rest with
          | .error e => .error e
          | .ok rows => .ok (row :: rows)

/-- The `ranking` column value pandas sees for a record (`NaN`, modelled
`null`, when the dict has no `ranking` key, as for failure records). -/
def rankingKey (user : PyDict) : Json :=
  (lookup user "ranking").getD .null

/-- Comparison used to model `df.sort_values(by='ranking', ascending=True)`:
numeric rankings ascending, records without a numeric ranking after all
numeric ones (pandas puts `NaN` last).  The model is faithful for columns
holding numbers and missing values; pandas raises `TypeError` for other
mixed object types, which is outside this model. -/
def rankLe (a b : PyDict) : Bool :=
  match rankingKey a, rankingKey b with
  | .num x, .num y => decide (x ≤ y)
  | .num _, _ => true
  | _, .num _ => false
  | _, _ => true

/-- `rankLe` as a relation, for the sort lemmas. -/
def RankLe (a b : PyDict) : Prop := rankLe a b = true

instance : DecidableRel RankLe := fun a b => by
  unfold RankLe; infer_instance

instance : IsTotal PyDict RankLe := by
  constructor
  intro a b
  unfold RankLe rankLe
  rcases rankingKey a with _ | _ | x | _ | _ | _ <;>
    rcases rankingKey b with _ | _ | y | _ | _ | _ <;> simp <;> omega

instance : IsTrans PyDict RankLe := by
  constructor
  intro a b c
  unfold RankLe rankLe
  rcases rankingKey a with _ | _ | x | _ | _ | _ <;>
    rcases rankingKey b with _ | _ | y | _ | _ | _ <;>
    rcases rankingKey c with _ | _ | z | _ | _ | _ <;> simp <;> omega

/-- `display_data` of `app.py`: `None` (a `st.warning`) when the list is
empty, otherwise the records sorted on the `ranking` column ascending
(the pandas sort modelled as a comparison sort with `rankLe`). -/
def display_data_app (data : List PyDict) : Option (List PyDict) :=
  if data.isEmpty then none
  else some (data.insertionSort RankLe)

/-- Split a character list at every occurrence of `sep` (the semantics of
Python `str.split` with a one-character separator). -/
def splitChars (sep : Char) : List Char → List (List Char)
  | [] => [[]]
  | c :: cs =>
      match splitChars sep cs with
      | [] => [[]]
      | cur :: rest =>
          if c = sep then [] :: cur :: rest else (c :: cur) :: rest

/-- Python `str.split(sep)` for a one-character separator. -/
def pySplit (sep : Char) (s : String) : List String :=
  (splitChars sep s.data).map (fun cs => String.mk cs)

/-- Drop the leading whitespace of a character list. -/
def dropSpace : List Char → List Char
  | [] => []
  | c :: cs => if c.isWhitespace then dropSpace cs else c :: cs

/-- Python `str.strip()`: whitespace removed from both ends. -/
def pyStrip (s : String) : String :=
  String.mk ((dropSpace (dropSpace s.data).reverse).reverse)

/-- Splitting text into lines as Python `readlines` / `splitlines` does for
newline-separated text: split at every newline, with no empty trailing
line after a final newline (`\r` line endings are outside the model). -/
def pySplitLines (content : String) : List String :=
  if content = "" then []
  else
    let parts := splitChars (Char.ofNat 10) content.data
    let parts :=
      if parts.getLast? = some [] then parts.dropLast else parts
    parts.map (fun cs => String.mk cs)

/-- Truthiness of an `argparse` string option: `None` and the empty string
are falsy. -/
def pyTruthyOptStr : Option String → Bool
  | none => false
  | some s => s != ""

/-- The `if args.file: ... elif args.usernames: ... else: raise` part of
`get_usernames` in `leetcode_fetcher.py`, before the size check.  The file
system is modelled as a partial map; `none` is `FileNotFoundError`. -/
def get_usernames_raw (argFile argUsernames : Option String)
    (readFile : String → Option String) : Except String (List String) :=
  if pyTruthyOptStr argFile then
    match readFile (argFile.getD "") with
    | none => .error ("File not found: " ++ argFile.getD "")
    | some content => .ok ((pySplitLines content).map pyStrip)
  else if pyTruthyOptStr argUsernames then
    .ok ((pySplit (Char.ofNat 44) (argUsernames.getD "")).map pyStrip)
  else
    .error "Provide either a file path or a list of usernames."

/-- `get_usernames` of `leetcode_fetcher.py`: source selection, then the
100-username cap.  `Except.error` models the raised `ValueError`. -/
def get_usernames (argFile argUsernames : Option String)
    (readFile : String → Option String) : Except String (List String) :=
  match get_usernames_raw argFile argUsernames readFile with
  | .error m => .error m
  | .ok usernames =>
      if usernames.length > 100 then
        .error "The number of usernames cannot exceed 100."
      else
        .ok usernames

/-- `get_usernames_from_file` of `app.py`: split the uploaded text into
stripped lines; over 200 lines, show `st.error` (the second component)
and return the empty list. -/
def get_usernames_from_file (content : String) :
    List String × Option String :=
  let usernames := (pySplitLines content).map pyStrip
  if usernames.length > 200 then
    ([], some "The number of usernames cannot exceed 100.")
  else
    (usernames, none)

/-- What the CLI run prints at the end: `Error: <msg>` (any exception is
caught by the top-level `except Exception`) or the table rows. -/
inductive CliOutcome where
  | printedError (msg : String) : CliOutcome
  | printedTable (rows : List (List Json)) : CliOutcome

/-- `str(e)` for the exceptions the model raises (quoting of `KeyError`
arguments omitted; no claim inspects these strings). -/
def pyExcStr : PyExc → String
  | .valueError m => m
  | .keyError k => k
  | .typeError m => m
  | .attributeError m => m

/-- The `__main__` block of `leetcode_fetcher.py`: input handling, fetch,
display, with every exception caught and printed.  The second component is
the list of usernames for which a network call was made. -/
def main_cli (argFile argUsernames : Option String)
    (readFile : String → Option String) (oracle : Oracle) :
    CliOutcome × List String :=
  match get_usernames argFile argUsernames readFile with
  | .error m => (.printedError m, [])
  | .ok usernames =>
      let calls := calls_made (fun u => fetch_user_data u (oracle u)) usernames
      match fetch_all_users oracle usernames with
      | .error e => (.printedError (pyExcStr e), calls)
      | .ok recs =>
          match display_data recs with
          | .error e => (.printedError (pyExcStr e), calls)
          | .ok rows => (.printedTable rows, calls)

/-- What the Streamlit run shows for an uploaded file. -/
inductive AppOutcome where
  | inputError (msg : String) : AppOutcome
  | nothingShown : AppOutcome
  | raised (e : PyExc) : AppOutcome
  | noData : AppOutcome
  | table (rows : List PyDict) : AppOutcome

/-- The `main` flow of `app.py` once a file is uploaded: read usernames
(an empty result, whether from the cap or an empty file, skips fetching),
fetch all, display.  The second component is the list of usernames for
which a network call was made. -/
def main_app (content : String) (oracle : Oracle) :
    AppOutcome × List String :=
  let r := get_usernames_from_file content
  if r.1.isEmpty then
    (match r.2 with
     | some m => (.inputError m, [])
     | none => (.nothingShown, []))
  else
    let calls := calls_made (fun u => fetch_user_data_app u (oracle u)) r.1
    match fetch_all_users_app oracle r.1 with
    | .error e => (.raised e, calls)
    | .ok recs =>
        match display_data_app recs with
        | none => (.noData, calls)
        | some rows => (.table rows, calls)

/-! Concrete response bodies of the shape the GraphQL endpoint documents,
used as inputs to the fetch functions in the theorems below. -/

/-- One `acSubmissionNum` entry `{difficulty, count}`. -/
def submissionEntry (p : String × Int) : Json :=
  .obj [("difficulty", .str p.1), ("count", .num p.2)]

/-- One `badges` entry `{displayName}`. -/
def badgeEntry (b : String) : Json :=
  .obj [("displayName", .str b)]

/-- The `profile` object of a well-formed response. -/
def goodProfile (ranking : Json) : Json :=
  .obj [("realName", .str "r"), ("userAvatar", .str "a"),
        ("ranking", ranking)]

/-- The `submitStats` object of a well-formed response. -/
def goodStats (counts : List (String × Int)) : Json :=
  .obj [("acSubmissionNum", .arr (counts.map submissionEntry))]

/-- The `matchedUser` object of a well-formed response. -/
def goodUser (counts : List (String × Int)) (ranking : Json)
    (badges : List String) : Json :=
  .obj [("username", .str "u"), ("profile", goodProfile ranking),
        ("submitStats", goodStats counts),
        ("badges", .arr (badges.map badgeEntry))]

/-- A `matchedUser` object with no `badges` field at all. -/
def goodUserNoBadges (counts : List (String × Int)) (ranking : Json) :
    Json :=
  .obj [("username", .str "u"), ("profile", goodProfile ranking),
        ("submitStats", goodStats counts)]

/-- A well-formed successful response body, parameterised by the
submission counts, the ranking value and the badge names. -/
def goodBody (counts : List (String × Int)) (ranking : Json)
    (badges : List String) : Json :=
  .obj [("data", .obj [("matchedUser", goodUser counts ranking badges)])]

/-- A well-formed successful response body whose `badges` field is absent
altogether. -/
def goodBodyNoBadges (counts : List (String × Int)) (ranking : Json) :
    Json :=
  .obj [("data",
    .obj [("matchedUser", goodUserNoBadges counts ranking)])]

/-- The record dict has a value for the key. -/
def hasKey (d : PyDict) (k : String) : Bool :=
  (lookup d k).isSome

/-- The Failure variant of a ProfileRecord: identifier and error detail,
none of the Success fields. -/
def failureVariant (d : PyDict) : Bool :=
  hasKey d "username" && hasKey d "error" &&
    !(hasKey d "ranking" || hasKey d "problems_solved" || hasKey d "badges")

/-- The Success variant of a ProfileRecord: identifier, rank, solved count
and badges, and no error detail. -/
def successVariant (d : PyDict) : Bool :=
  hasKey d "username" && hasKey d "ranking" && hasKey d "problems_solved" &&
    hasKey d "badges" && !hasKey d "error"

/-- Exactly one of the two ProfileRecord variants is populated. -/
def exactlyOneVariant (d : PyDict) : Bool :=
  failureVariant d ^^ successVariant d

/-- A Success record with rank 50. -/
def rec50 : PyDict :=
  [("username", .str "alice"), ("ranking", .num 50),
   ("problems_solved", .num 1), ("badges", .arr [])]

/-- A Success record with rank 1000. -/
def rec1000 : PyDict :=
  [("username", .str "bob"), ("ranking", .num 1000),
   ("problems_solved", .num 2), ("badges", .arr [])]

/-- A success dict as `fetch_user_data` of `leetcode_fetcher.py` builds
it, with an explicit badges value. -/
def succRec (u : String) (r : Json) (ps : Int) (badgesVal : Json) :
    PyDict :=
  [("username", .str u), ("ranking", r), ("problems_solved", .num ps),
   ("badges", badgesVal)]

/-- 101 comma-separated identifiers, one over the CLI cap. -/
def bigUsernames : String :=
  String.mk ((List.replicate 100 [Char.ofNat 97, Char.ofNat 44]).join ++
    [Char.ofNat 97])

/-- An uploaded file with 201 lines, one over the upload cap. -/
def bigFileContent : String :=
  String.mk (List.replicate 201 [Char.ofNat 97, Char.ofNat 10]).join

theorem subscript_submissionEntry (p : String × Int) :
    pySubscript (submissionEntry p) "count" = Except.ok (.num p.2) := rfl

theorem subscript_badgeEntry (b : String) :
    pySubscript (badgeEntry b) "displayName" = Except.ok (.str b) := rfl

theorem sumCounts_entries (counts : List (String × Int)) :
    sumCounts (counts.map submissionEntry) =
      Except.ok (counts.map Prod.snd).sum := by
  induction counts with
  | nil => rfl
  | cons p ps ih =>
      simp only [List.map_cons, sumCounts, subscript_submissionEntry,
                 Bind.bind, Except.bind, pyToInt, ih, Pure.pure, Except.pure,
                 List.sum_cons]

theorem comprehension_badge_names (badges : List String) :
    pyComprehension (fun b => pySubscript b "displayName")
        (badges.map badgeEntry) =
      Except.ok (badges.map Json.str) := by
  induction badges with
  | nil => rfl
  | cons b bs ih =>
      simp only [List.map_cons, pyComprehension, subscript_badgeEntry,
                 Bind.bind, Except.bind, ih, Pure.pure, Except.pure]

theorem asStrings_map (ss : List String) :
    asStrings (ss.map Json.str) = Except.ok ss := by
  induction ss with
  | nil => rfl
  | cons s rest ih =>
      simp only [List.map_cons, asStrings, Bind.bind, Except.bind, ih,
                 Pure.pure, Except.pure]

theorem pyIter_arr (xs : List Json) : pyIter (.arr xs) = Except.ok xs := rfl

theorem pyTruthy_arr (xs : List Json) :
    pyTruthy (.arr xs) = !xs.isEmpty := rfl

theorem isEmpty_map {α β : Type} (f : α → β) (l : List α) :
    (l.map f).isEmpty = l.isEmpty := by
  cases l <;> rfl

theorem pyJoinStrs_strs (sep : String) (ss : List String) :
    pyJoinStrs sep (ss.map Json.str) =
      Except.ok (String.intercalate sep ss) := by
  simp only [pyJoinStrs, asStrings_map, Bind.bind, Except.bind, Pure.pure,
             Except.pure]

theorem contains_errors_goodBody (c : List (String × Int)) (r : Json)
    (bs : List String) :
    pyContains "errors" (goodBody c r bs) = Except.ok false := rfl

theorem sub_data_goodBody (c : List (String × Int)) (r : Json)
    (bs : List String) :
    pySubscript (goodBody c r bs) "data" =
      Except.ok (.obj [("matchedUser", goodUser c r bs)]) := rfl

theorem sub_matchedUser (x : Json) :
    pySubscript (.obj [("matchedUser", x)]) "matchedUser" = Except.ok x := rfl

theorem sub_profile_goodUser (c : List (String × Int)) (r : Json)
    (bs : List String) :
    pySubscript (goodUser c r bs) "profile" = Except.ok (goodProfile r) := rfl

theorem sub_stats_goodUser (c : List (String × Int)) (r : Json)
    (bs : List String) :
    pySubscript (goodUser c r bs) "submitStats" =
      Except.ok (goodStats c) := rfl

theorem get_badges_goodUser (c : List (String × Int)) (r : Json)
    (bs : List String) :
    pyGet (goodUser c r bs) "badges" (.arr []) =
      Except.ok (.arr (bs.map badgeEntry)) := rfl

theorem sub_ranking_goodProfile (r : Json) :
    pySubscript (goodProfile r) "ranking" = Except.ok r := rfl

theorem sub_acsub_goodStats (c : List (String × Int)) :
    pySubscript (goodStats c) "acSubmissionNum" =
      Except.ok (.arr (c.map submissionEntry)) := rfl

theorem truthy_goodUser (c : List (String × Int)) (r : Json)
    (bs : List String) : pyTruthy (goodUser c r bs) = true := rfl

theorem contains_errors_goodBodyNB (c : List (String × Int)) (r : Json) :
    pyContains "errors" (goodBodyNoBadges c r) = Except.ok false := rfl

theorem sub_data_goodBodyNB (c : List (String × Int)) (r : Json) :
    pySubscript (goodBodyNoBadges c r) "data" =
      Except.ok (.obj [("matchedUser", goodUserNoBadges c r)]) := rfl

theorem sub_profile_goodUserNB (c : List (String × Int)) (r : Json) :
    pySubscript (goodUserNoBadges c r) "profile" =
      Except.ok (goodProfile r) := rfl

theorem sub_stats_goodUserNB (c : List (String × Int)) (r : Json) :
    pySubscript (goodUserNoBadges c r) "submitStats" =
      Except.ok (goodStats c) := rfl

theorem get_badges_goodUserNB (c : List (String × Int)) (r : Json) :
    pyGet (goodUserNoBadges c r) "badges" (.arr []) =
      Except.ok (.arr []) := rfl

theorem truthy_goodUserNB (c : List (String × Int)) (r : Json) :
    pyTruthy (goodUserNoBadges c r) = true := rfl

theorem fetch_body_goodBody_cli (u : String) (c : List (String × Int))
    (r : Json) (bs : List String) :
    fetch_body false u ⟨200, .ok (goodBody c r bs)⟩ =
      Except.ok [("username", .str u), ("ranking", r),
        ("problems_solved", .num (Int.fdiv (c.map Prod.snd).sum 2)),
        ("badges", .arr (bs.map Json.str))] := by
  simp only [fetch_body, contains_errors_goodBody, Bind.bind, Except.bind,
             Pure.pure, Except.pure, sub_data_goodBody, sub_matchedUser,
             sub_profile_goodUser, sub_stats_goodUser, get_badges_goodUser,
             sub_ranking_goodProfile, sub_acsub_goodStats, truthy_goodUser,
             pyIter_arr, sumCounts_entries, comprehension_badge_names,
             Bool.not_true, Bool.false_eq_true, if_false]

theorem fetch_body_goodBody_app (u : String) (c : List (String × Int))
    (r : Json) (bs : List String) :
    fetch_body true u ⟨200, .ok (goodBody c r bs)⟩ =
      Except.ok [("username", .str u), ("ranking", r),
        ("problems_solved", .num (Int.fdiv (c.map Prod.snd).sum 2)),
        ("badges", .str (if bs.isEmpty then "None"
                         else String.intercalate ", " bs))] := by
  cases bs with
  | nil =>
      simp only [fetch_body, contains_errors_goodBody, Bind.bind, Except.bind,
                 Pure.pure, Except.pure, sub_data_goodBody, sub_matchedUser,
                 sub_profile_goodUser, sub_stats_goodUser, get_badges_goodUser,
                 sub_ranking_goodProfile, sub_acsub_goodStats, truthy_goodUser,
                 pyIter_arr, sumCounts_entries, comprehension_badge_names,
                 pyTruthy_arr, List.map_nil, List.isEmpty_nil, Bool.not_true,
                 Bool.false_eq_true, if_false, if_true]
  | cons b rest =>
      simp only [fetch_body, contains_errors_goodBody, Bind.bind, Except.bind,
                 Pure.pure, Except.pure, sub_data_goodBody, sub_matchedUser,
                 sub_profile_goodUser, sub_stats_goodUser, get_badges_goodUser,
                 sub_ranking_goodProfile, sub_acsub_goodStats, truthy_goodUser,
                 pyIter_arr, sumCounts_entries, comprehension_badge_names,
                 pyJoinStrs_strs, pyTruthy_arr, isEmpty_map,
                 List.isEmpty_cons, Bool.not_true, Bool.not_false,
                 Bool.false_eq_true, if_false, if_true]

theorem fetch_body_goodBodyNB_cli (u : String) (c : List (String × Int))
    (r : Json) :
    fetch_body false u ⟨200, .ok (goodBodyNoBadges c r)⟩ =
      Except.ok [("username", .str u), ("ranking", r),
        ("problems_solved", .num (Int.fdiv (c.map Prod.snd).sum 2)),
        ("badges", .arr [])] := by
  simp only [fetch_body, contains_errors_goodBodyNB, Bind.bind, Except.bind,
             Pure.pure, Except.pure, sub_data_goodBodyNB, sub_matchedUser,
             sub_profile_goodUserNB, sub_stats_goodUserNB,
             get_badges_goodUserNB, sub_ranking_goodProfile,
             sub_acsub_goodStats, truthy_goodUserNB, pyIter_arr,
             sumCounts_entries, pyComprehension, Bool.not_true,
             Bool.false_eq_true, if_false]

theorem fetch_body_goodBodyNB_app (u : String) (c : List (String × Int))
    (r : Json) :
    fetch_body true u ⟨200, .ok (goodBodyNoBadges c r)⟩ =
      Except.ok [("username", .str u), ("ranking", r),
        ("problems_solved", .num (Int.fdiv (c.map Prod.snd).sum 2)),
        ("badges", .str "None")] := by
  simp only [fetch_body, contains_errors_goodBodyNB, Bind.bind, Except.bind,
             Pure.pure, Except.pure, sub_data_goodBodyNB, sub_matchedUser,
             sub_profile_goodUserNB, sub_stats_goodUserNB,
             get_badges_goodUserNB, sub_ranking_goodProfile,
             sub_acsub_goodStats, truthy_goodUserNB, pyIter_arr,
             sumCounts_entries, pyTruthy_arr, List.isEmpty_nil,
             Bool.not_true, Bool.not_false, Bool.false_eq_true, if_false,
             if_true]

theorem fetch_user_data_goodBody (u : String) (c : List (String × Int))
    (r : Json) (bs : List String) :
    fetch_user_data u ⟨200, .ok (goodBody c r bs)⟩ =
      Except.ok [("username", .str u), ("ranking", r),
        ("problems_solved", .num (Int.fdiv (c.map Prod.snd).sum 2)),
        ("badges", .arr (bs.map Json.str))] := by
  have h := fetch_body_goodBody_cli u c r bs
  simp [fetch_user_data, fetch_outer, h]

theorem fetch_user_data_app_goodBody (u : String) (c : List (String × Int))
    (r : Json) (bs : List String) :
    fetch_user_data_app u ⟨200, .ok (goodBody c r bs)⟩ =
      Except.ok [("username", .str u), ("ranking", r),
        ("problems_solved", .num (Int.fdiv (c.map Prod.snd).sum 2)),
        ("badges", .str (if bs.isEmpty then "None"
                         else String.intercalate ", " bs))] := by
  have h := fetch_body_goodBody_app u c r bs
  simp [fetch_user_data_app, fetch_outer, h]

theorem fetch_user_data_goodBodyNB (u : String) (c : List (String × Int))
    (r : Json) :
    fetch_user_data u ⟨200, .ok (goodBodyNoBadges c r)⟩ =
      Except.ok [("username", .str u), ("ranking", r),
        ("problems_solved", .num (Int.fdiv (c.map Prod.snd).sum 2)),
        ("badges", .arr [])] := by
  have h := fetch_body_goodBodyNB_cli u c r
  simp [fetch_user_data, fetch_outer, h]

theorem fetch_user_data_app_goodBodyNB (u : String) (c : List (String × Int))
    (r : Json) :
    fetch_user_data_app u ⟨200, .ok (goodBodyNoBadges c r)⟩ =
      Except.ok [("username", .str u), ("ranking", r),
        ("problems_solved", .num (Int.fdiv (c.map Prod.snd).sum 2)),
        ("badges", .str "None")] := by
  have h := fetch_body_goodBodyNB_app u c r
  simp [fetch_user_data_app, fetch_outer, h]


theorem fetch_body_shape (jb : Bool) (u : String) (resp : Response)
    (d : PyDict) (h : fetch_body jb u resp = Except.ok d) :
    exactlyOneVariant d = true := by
  unfold fetch_body at h
  simp only [Bind.bind, Except.bind, Pure.pure, Except.pure, throw,
             throwThe, MonadExceptOf.throw] at h
  iterate 25 (all_goals (try split at h))
  all_goals
    first
    | (injection h with h; subst h; rfl)
    | injection h

theorem fetch_outer_shape (jb : Bool) (u : String) (resp : Response)
    (d : PyDict) (h : fetch_outer jb u resp = Except.ok d) :
    exactlyOneVariant d = true := by
  unfold fetch_outer at h
  split at h
  · injection h with h; subst h; rfl
  · split at h
    · rename_i d0 heq
      injection h with h
      subst h
      exact fetch_body_shape jb u resp d0 heq
    · injection h with h; subst h; rfl
    · injection h

theorem runBatch_ok (fetch : String →  Except PyExc PyDict)
    (f : String → PyDict) (us : List String)
    (h : ∀ u ∈ us, fetch u = Except.ok (f u)) :
    runBatch fetch us = Except.ok (us.map f) := by
  induction us with
  | nil => rfl
  | cons u rest ih =>
      have hu : fetch u = Except.ok (f u) := h u (List.mem_cons_self u rest)
      have hrest := ih (fun v hv => h v (List.mem_cons_of_mem u hv))
      simp only [runBatch, hu, hrest, List.map_cons]

theorem display_data_ok (g : PyDict → List Json) (data : List PyDict)
    (h : ∀ d ∈ data, render_row d = Except.ok (g d)) :
    display_data data = Except.ok (data.map g) := by
  induction data with
  | nil => rfl
  | cons d rest ih =>
      have hd : render_row d = Except.ok (g d) := h d (List.mem_cons_self d rest)
      have hrest := ih (fun e he => h e (List.mem_cons_of_mem d he))
      simp only [display_data, hd, hrest, List.map_cons]


theorem fetch_outer_bad_status (jb : Bool) (u : String) (resp : Response)
    (h : resp.status_code ≠ 200) :
    fetch_outer jb u resp =
      Except.ok [("username", .str u),
        ("error", .str ("API error: " ++ toString resp.status_code))] := by
  simp only [fetch_outer, if_pos h]

theorem fetch_body_errors_payload (jb : Bool) (u : String) (st : Nat)
    (kvs : List (String × Json)) (e : Json)
    (h : lookup kvs "errors" = some e) :
    fetch_body jb u ⟨st, .ok (.obj kvs)⟩ =
      Except.ok [("username", .str u), ("error", e)] := by
  simp only [fetch_body, Bind.bind, Except.bind, Pure.pure, Except.pure,
             pyContains, pySubscript, h, Option.isSome_some, if_true]

theorem contains_errors_dataOnly (x : Json) :
    pyContains "errors" (.obj [("data", x)]) = Except.ok false := rfl

theorem sub_data_dataOnly (x : Json) :
    pySubscript (.obj [("data", x)]) "data" = Except.ok x := rfl

theorem fetch_body_not_found (jb : Bool) (u : String) (mu : Json)
    (h : pyTruthy mu = false) :
    fetch_body jb u ⟨200, .ok (.obj [("data", .obj [("matchedUser", mu)])])⟩ =
      Except.ok [("username", .str u), ("error", .str "User not found.")] := by
  simp only [fetch_body, Bind.bind, Except.bind, Pure.pure, Except.pure,
             contains_errors_dataOnly, sub_data_dataOnly, sub_matchedUser, h,
             Bool.not_false, Bool.false_eq_true, if_false, if_true]

theorem succRec_no_error (u : String) (r : Json) (ps : Int) (b : Json) :
    lookup (succRec u r ps b) "error" = none := rfl

theorem succRec_username (u : String) (r : Json) (ps : Int) (b : Json) :
    dictSub (succRec u r ps b) "username" = Except.ok (.str u) := rfl

theorem succRec_ranking (u : String) (r : Json) (ps : Int) (b : Json) :
    dictSub (succRec u r ps b) "ranking" = Except.ok r := rfl

theorem succRec_solved (u : String) (r : Json) (ps : Int) (b : Json) :
    dictSub (succRec u r ps b) "problems_solved" = Except.ok (.num ps) := rfl

theorem succRec_badges (u : String) (r : Json) (ps : Int) (b : Json) :
    dictSub (succRec u r ps b) "badges" = Except.ok b := rfl

theorem render_row_succRec (u : String) (r : Json) (ps : Int)
    (bs : List String) :
    render_row (succRec u r ps (.arr (bs.map Json.str))) =
      Except.ok [.str u, if pyTruthy r then r else .str "N/A", .num ps,
        .str (if bs.isEmpty then "None"
              else String.intercalate ", " bs)] := by
  cases bs with
  | nil => rfl
  | cons b rest =>
      simp only [render_row, succRec_no_error, Option.isSome_none,
                 Bool.false_eq_true, if_false, succRec_username,
                 succRec_ranking, succRec_solved, succRec_badges,
                 Bind.bind, Except.bind, Pure.pure, Except.pure,
                 pyTruthy_arr, isEmpty_map, List.isEmpty_cons,
                 Bool.not_false, if_true, pyIter_arr, pyJoinStrs_strs]

theorem display_single (d : PyDict) (row : List Json)
    (h : render_row d = Except.ok row) :
    display_data [d] = Except.ok [row] := by
  simp only [display_data, h]

theorem pyTruthy_num_zero : pyTruthy (.num 0) = false := rfl

theorem pyTruthy_null : pyTruthy .null = false := rfl


/-- C1: for every well-formed successful response with integer submission
counts, both fetchers return a Success record whose `problems_solved` is
the floor of the count sum divided by 2. -/
theorem C1_problems_solved_halved (u : String) (c : List (String × Int))
    (r : Json) (bs : List String) :
    fetch_user_data u ⟨200, .ok (goodBody c r bs)⟩ =
      Except.ok [("username", .str u), ("ranking", r),
        ("problems_solved", .num (Int.fdiv (c.map Prod.snd).sum 2)),
        ("badges", .arr (bs.map Json.str))] ∧
    fetch_user_data_app u ⟨200, .ok (goodBody c r bs)⟩ =
      Except.ok [("username", .str u), ("ranking", r),
        ("problems_solved", .num (Int.fdiv (c.map Prod.snd).sum 2)),
        ("badges", .str (if bs.isEmpty then "None"
                         else String.intercalate ", " bs))] :=
  ⟨fetch_user_data_goodBody u c r bs, fetch_user_data_app_goodBody u c r bs⟩

/-- C1 at the spec example: counts 10, 8, 2, 20 sum to 40 and yield 20. -/
theorem C1_example :
    fetch_user_data "x" ⟨200, .ok (goodBody
        [("Easy", 10), ("Medium", 8), ("Hard", 2), ("All", 20)]
        (.num 5) [])⟩ =
      Except.ok [("username", .str "x"), ("ranking", .num 5),
        ("problems_solved", .num 20), ("badges", .arr [])] := rfl

/-- C2 (code bug): a 200 response whose parsed body is the empty JSON
object makes both fetchers raise an uncaught `KeyError` for the missing
`data` key, escaping `fetch_user_data`. -/
theorem C2_keyerror_escapes :
    fetch_user_data "u" ⟨200, .ok (.obj [])⟩ =
      Except.error (.keyError "data") ∧
    fetch_user_data_app "u" ⟨200, .ok (.obj [])⟩ =
      Except.error (.keyError "data") :=
  ⟨rfl, rfl⟩

/-- C3: when every per-identifier fetch resolves to a record (no uncaught
exception), both batch loops return exactly one record per input
identifier, in input order, with no deduplication and no
short-circuiting. -/
theorem C3_batch_one_record_per_input (oracle : Oracle)
    (f g : String → PyDict) (us : List String)
    (hf : ∀ u ∈ us, fetch_user_data u (oracle u) = Except.ok (f u))
    (hg : ∀ u ∈ us, fetch_user_data_app u (oracle u) = Except.ok (g u)) :
    fetch_all_users oracle us = Except.ok (us.map f) ∧
    fetch_all_users_app oracle us = Except.ok (us.map g) ∧
    (us.map f).length = us.length ∧ (us.map g).length = us.length :=
  ⟨runBatch_ok _ f us hf, runBatch_ok _ g us hg,
   List.length_map us f, List.length_map us g⟩

/-- C3 witness: three identifiers with a repeat, all resolving to Failure
records against a 500-status remote, still yield three records in input
order. -/
theorem C3_batch_one_record_per_input_witness :
    fetch_all_users (fun _ => ⟨500, .ok .null⟩) ["alice", "bob", "alice"] =
      Except.ok
        [[("username", Json.str "alice"), ("error", Json.str "API error: 500")],
         [("username", Json.str "bob"), ("error", Json.str "API error: 500")],
         [("username", Json.str "alice"), ("error", Json.str "API error: 500")]] :=
  (C3_batch_one_record_per_input (fun _ => ⟨500, .ok .null⟩)
    (fun u => [("username", Json.str u), ("error", Json.str "API error: 500")])
    (fun u => [("username", Json.str u), ("error", Json.str "API error: 500")])
    ["alice", "bob", "alice"] (fun _ _ => by beta_reduce; rfl)
    (fun _ _ => by beta_reduce; rfl)).1

/-- C7: every record either fetcher returns populates exactly one
ProfileRecord variant: either the Failure fields or the Success fields,
never fields of both. -/
theorem C7_exactly_one_variant :
    (∀ (u : String) (resp : Response) (d : PyDict),
        fetch_user_data u resp = Except.ok d → exactlyOneVariant d = true) ∧
    (∀ (u : String) (resp : Response) (d : PyDict),
        fetch_user_data_app u resp = Except.ok d →
          exactlyOneVariant d = true) :=
  ⟨fun u resp d h => fetch_outer_shape false u resp d h,
   fun u resp d h => fetch_outer_shape true u resp d h⟩

/-- C7 witness: the Failure record for a 404 response populates exactly
one variant. -/
theorem C7_exactly_one_variant_witness :
    fetch_user_data "ghost" ⟨404, .ok .null⟩ =
      Except.ok [("username", Json.str "ghost"),
                 ("error", Json.str "API error: 404")] ∧
    exactlyOneVariant [("username", Json.str "ghost"),
                       ("error", Json.str "API error: 404")] = true :=
  ⟨rfl, C7_exactly_one_variant.1 "ghost" ⟨404, .ok .null⟩ _ rfl⟩

/-- C8 (counterexample): on a well-formed response with an empty badge
list, the `app.py` fetcher stores the string `"None"` in the `badges`
field, not an empty sequence. -/
theorem C8_app_badges_not_sequence :
    fetch_user_data_app "u" ⟨200, .ok (goodBody [("All", 4)] (.num 7) [])⟩ =
      Except.ok [("username", .str "u"), ("ranking", .num 7),
        ("problems_solved", .num 2), ("badges", .str "None")] := rfl

/-- C8 (amended): with an empty or absent badge list, the CLI fetcher
returns Success with `badges = []` and its renderer shows `"None"`; the
app fetcher returns Success whose badges field is the placeholder string
`"None"` itself. -/
theorem C8_empty_badges_success (u : String) (c : List (String × Int))
    (r : Json) :
    fetch_user_data u ⟨200, .ok (goodBody c r [])⟩ =
      Except.ok (succRec u r (Int.fdiv (c.map Prod.snd).sum 2) (.arr [])) ∧
    fetch_user_data u ⟨200, .ok (goodBodyNoBadges c r)⟩ =
      Except.ok (succRec u r (Int.fdiv (c.map Prod.snd).sum 2) (.arr [])) ∧
    render_row (succRec u r (Int.fdiv (c.map Prod.snd).sum 2) (.arr [])) =
      Except.ok [.str u, if pyTruthy r then r else .str "N/A",
        .num (Int.fdiv (c.map Prod.snd).sum 2), .str "None"] ∧
    fetch_user_data_app u ⟨200, .ok (goodBody c r [])⟩ =
      Except.ok (succRec u r (Int.fdiv (c.map Prod.snd).sum 2)
        (.str "None")) ∧
    fetch_user_data_app u ⟨200, .ok (goodBodyNoBadges c r)⟩ =
      Except.ok (succRec u r (Int.fdiv (c.map Prod.snd).sum 2)
        (.str "None")) := by
  refine ⟨?_, ?_, ?_, ?_, ?_⟩
  · simpa [succRec] using fetch_user_data_goodBody u c r []
  · simpa [succRec] using fetch_user_data_goodBodyNB u c r
  · simpa using render_row_succRec u r (Int.fdiv (c.map Prod.snd).sum 2) []
  · simpa [succRec] using fetch_user_data_app_goodBody u c r []
  · simpa [succRec] using fetch_user_data_app_goodBodyNB u c r

/-- C10: in the CLI renderer a Success record with rank 0 renders exactly
like one with a null rank, with the `"N/A"` placeholder in the rank
column. -/
theorem C10_rank_zero_displays_na (u : String) (ps : Int)
    (bs : List String) :
    display_data [succRec u (.num 0) ps (.arr (bs.map Json.str))] =
      display_data [succRec u .null ps (.arr (bs.map Json.str))] ∧
    display_data [succRec u (.num 0) ps (.arr (bs.map Json.str))] =
      Except.ok [[.str u, .str "N/A", .num ps,
        .str (if bs.isEmpty then "None"
              else String.intercalate ", " bs)]] := by
  have h0 : render_row (succRec u (.num 0) ps (.arr (bs.map Json.str))) =
      Except.ok [.str u, .str "N/A", .num ps,
        .str (if bs.isEmpty then "None"
              else String.intercalate ", " bs)] := by
    simpa [pyTruthy_num_zero] using render_row_succRec u (.num 0) ps bs
  have hn : render_row (succRec u .null ps (.arr (bs.map Json.str))) =
      Except.ok [.str u, .str "N/A", .num ps,
        .str (if bs.isEmpty then "None"
              else String.intercalate ", " bs)] := by
    simpa [pyTruthy_null] using render_row_succRec u .null ps bs
  exact ⟨by rw [display_single _ _ h0, display_single _ _ hn],
         display_single _ _ h0⟩


/-- C4 (counterexample): the CLI renderer emits the rows in batch order --
the rank-1000 record's row comes before the rank-50 record's row. -/
theorem C4_cli_renderer_not_sorted :
    display_data [rec1000, rec50] =
      Except.ok [[.str "bob", .num 1000, .num 2, .str "None"],
                 [.str "alice", .num 50, .num 1, .str "None"]] := rfl

/-- C4 (amended): only the interactive renderer sorts: for records with
numeric ranks, `display_data_app` returns a rank-ascending permutation of
the batch, while the CLI `display_data` renders one row per record in
batch order. -/
theorem C4_only_app_renderer_sorts (data : List PyDict)
    (g : PyDict → List Json)
    (hnum : ∀ d ∈ data, ∃ n : Int, rankingKey d = Json.num n)
    (hrow : ∀ d ∈ data, render_row d = Except.ok (g d))
    (hne : data ≠ []) :
    (∃ l, display_data_app data = some l ∧ List.Perm l data ∧
      List.Sorted RankLe l) ∧
    display_data data = Except.ok (data.map g) := by
  refine ⟨⟨data.insertionSort RankLe, ?_, ?_, ?_⟩,
          display_data_ok g data hrow⟩
  · cases data with
    | nil => exact absurd rfl hne
    | cons d rest => rfl
  · exact List.perm_insertionSort RankLe data
  · exact List.sorted_insertionSort RankLe data

/-- C4 witness: the batch [rank 1000, rank 50] is rendered sorted (50
before 1000) by the app renderer and in batch order by the CLI one. -/
theorem C4_only_app_renderer_sorts_witness :
    ((∃ l, display_data_app [rec1000, rec50] = some l ∧
        List.Perm l [rec1000, rec50] ∧ List.Sorted RankLe l) ∧
      display_data [rec1000, rec50] =
        Except.ok ([rec1000, rec50].map (fun d =>
          match render_row d with
          | .ok row => row
          | .error _ => []))) ∧
    display_data_app [rec1000, rec50] = some [rec50, rec1000] :=
  ⟨C4_only_app_renderer_sorts [rec1000, rec50]
    (fun d => match render_row d with
              | .ok row => row
              | .error _ => [])
    (by
      intro d hd
      simp only [List.mem_cons, List.not_mem_nil, or_false] at hd
      rcases hd with rfl | rfl
      · exact ⟨1000, rfl⟩
      · exact ⟨50, rfl⟩)
    (by
      intro d hd
      simp only [List.mem_cons, List.not_mem_nil, or_false] at hd
      rcases hd with rfl | rfl <;> rfl)
    (List.cons_ne_nil _ _), rfl⟩

/-- C6 (counterexample): a 200 response whose `data` object has no
`matchedUser` key at all raises an uncaught `KeyError` instead of
yielding Failure("User not found."). -/
theorem C6_absent_matcheduser_raises :
    fetch_user_data "ghost" ⟨200, .ok (.obj [("data", .obj [])])⟩ =
      Except.error (.keyError "matchedUser") ∧
    fetch_user_data_app "ghost" ⟨200, .ok (.obj [("data", .obj [])])⟩ =
      Except.error (.keyError "matchedUser") :=
  ⟨rfl, rfl⟩

/-- C6 (amended): a 200 response with no error payload whose
`matchedUser` value is present but empty/falsy yields exactly
Failure("User not found.") in both fetchers; a non-200 status wins over
any body, and an `errors` payload wins over the matched-user check. -/
theorem C6_user_not_found_classification :
    (∀ (u : String) (mu : Json), pyTruthy mu = false →
        fetch_user_data u
            ⟨200, .ok (.obj [("data", .obj [("matchedUser", mu)])])⟩ =
          Except.ok [("username", .str u),
            ("error", .str "User not found.")] ∧
        fetch_user_data_app u
            ⟨200, .ok (.obj [("data", .obj [("matchedUser", mu)])])⟩ =
          Except.ok [("username", .str u),
            ("error", .str "User not found.")]) ∧
    (∀ (u : String) (resp : Response), resp.status_code ≠ 200 →
        fetch_user_data u resp =
          Except.ok [("username", .str u),
            ("error", .str ("API error: " ++ toString resp.status_code))]) ∧
    (∀ (u : String) (kvs : List (String × Json)) (e : Json),
        lookup kvs "errors" = some e →
        fetch_user_data u ⟨200, .ok (.obj kvs)⟩ =
          Except.ok [("username", .str u), ("error", e)]) := by
  refine ⟨fun u mu hmu => ⟨?_, ?_⟩, fun u resp h => ?_, fun u kvs e h => ?_⟩
  · have hb := fetch_body_not_found false u mu hmu
    simp [fetch_user_data, fetch_outer, hb]
  · have hb := fetch_body_not_found true u mu hmu
    simp [fetch_user_data_app, fetch_outer, hb]
  · exact fetch_outer_bad_status false u resp h
  · have hb := fetch_body_errors_payload false u 200 kvs e h
    simp [fetch_user_data, fetch_outer, hb]

/-- C6 witness: `matchedUser: null` yields Failure("User not found.");
status 500 wins over a not-found body; an errors payload wins over
`matchedUser: null`. -/
theorem C6_user_not_found_classification_witness :
    (fetch_user_data "ghost"
        ⟨200, .ok (.obj [("data", .obj [("matchedUser", .null)])])⟩ =
      Except.ok [("username", .str "ghost"),
        ("error", .str "User not found.")] ∧
     fetch_user_data_app "ghost"
        ⟨200, .ok (.obj [("data", .obj [("matchedUser", .null)])])⟩ =
      Except.ok [("username", .str "ghost"),
        ("error", .str "User not found.")]) ∧
    fetch_user_data "ghost"
        ⟨500, .ok (.obj [("data", .obj [("matchedUser", .null)])])⟩ =
      Except.ok [("username", .str "ghost"),
        ("error", .str ("API error: " ++ toString 500))] ∧
    fetch_user_data "ghost"
        ⟨200, .ok (.obj [("errors", .arr [.str "boom"]),
                         ("data", .obj [("matchedUser", .null)])])⟩ =
      Except.ok [("username", .str "ghost"),
        ("error", .arr [.str "boom"])] :=
  ⟨C6_user_not_found_classification.1 "ghost" .null rfl,
   C6_user_not_found_classification.2.1 "ghost"
     ⟨500, .ok (.obj [("data", .obj [("matchedUser", .null)])])⟩
     (by decide),
   C6_user_not_found_classification.2.2 "ghost"
     [("errors", .arr [.str "boom"]),
      ("data", .obj [("matchedUser", .null)])] (.arr [.str "boom"]) rfl⟩


theorem get_usernames_cap (aF aU : Option String)
    (rf : String → Option String) (ts : List String)
    (h : get_usernames_raw aF aU rf = Except.ok ts)
    (hlen : ts.length > 100) :
    get_usernames aF aU rf =
      Except.error "The number of usernames cannot exceed 100." := by
  simp only [get_usernames, h, if_pos hlen]

/-- C5: a batch whose token count exceeds the cap (100 on the CLI path,
200 on the file-upload path) fails with the input error before any fetch:
the outcome carries the error message and the list of performed network
calls is empty. -/
theorem C5_cap_aborts_before_fetch :
    (∀ (aF aU : Option String) (rf : String → Option String)
       (oracle : Oracle) (ts : List String),
        get_usernames_raw aF aU rf = Except.ok ts → ts.length > 100 →
        main_cli aF aU rf oracle =
          (.printedError "The number of usernames cannot exceed 100.",
           [])) ∧
    (∀ (content : String) (oracle : Oracle),
        ((pySplitLines content).map pyStrip).length > 200 →
        main_app content oracle =
          (.inputError "The number of usernames cannot exceed 100.",
           [])) := by
  constructor
  · intro aF aU rf oracle ts h hlen
    have hc := get_usernames_cap aF aU rf ts h hlen
    simp only [main_cli, hc]
  · intro content oracle h
    simp only [main_app, get_usernames_from_file]
    rw [if_pos h]
    rfl

set_option maxRecDepth 8000 in
/-- C5 witness: 101 comma-separated identifiers on the CLI path and a
201-line upload on the file path both abort with zero network calls. -/
theorem C5_cap_aborts_before_fetch_witness :
    main_cli none (some bigUsernames) (fun _ => none)
        (fun _ => ⟨500, .ok .null⟩) =
      (.printedError "The number of usernames cannot exceed 100.", []) ∧
    main_app bigFileContent (fun _ => ⟨500, .ok .null⟩) =
      (.inputError "The number of usernames cannot exceed 100.", []) :=
  ⟨C5_cap_aborts_before_fetch.1 none (some bigUsernames) (fun _ => none)
      (fun _ => ⟨500, .ok .null⟩)
      ((pySplit (Char.ofNat 44) bigUsernames).map pyStrip) (by rfl)
      (by decide),
   C5_cap_aborts_before_fetch.2 bigFileContent (fun _ => ⟨500, .ok .null⟩)
      (by decide)⟩


/-- C9: the CLI file argument takes priority and the usernames argument
is then ignored, never combined; with neither argument given, the run
fails with the input error and performs zero network calls. -/
theorem C9_cli_sources_exclusive :
    (∀ (f u : String) (rf : String → Option String), f ≠ "" →
        get_usernames (some f) (some u) rf =
          get_usernames (some f) none rf) ∧
    (∀ (aF aU : Option String) (rf : String → Option String)
       (oracle : Oracle),
        pyTruthyOptStr aF = false → pyTruthyOptStr aU = false →
        main_cli aF aU rf oracle =
          (.printedError
            "Provide either a file path or a list of usernames.", [])) := by
  constructor
  · intro f u rf hf
    have ht : pyTruthyOptStr (some f) = true := by
      simp [pyTruthyOptStr, hf]
    simp [get_usernames, get_usernames_raw, ht]
  · intro aF aU rf oracle h1 h2
    simp [main_cli, get_usernames, get_usernames_raw, h1, h2]

/-- C9 witness: with both arguments given the usernames list is ignored;
with neither, the run aborts before fetching. -/
theorem C9_cli_sources_exclusive_witness :
    get_usernames (some "names.txt") (some "a,b") (fun _ => none) =
      get_usernames (some "names.txt") none (fun _ => none) ∧
    main_cli none none (fun _ => none) (fun _ => ⟨500, .ok .null⟩) =
      (.printedError
        "Provide either a file path or a list of usernames.", []) :=
  ⟨C9_cli_sources_exclusive.1 "names.txt" "a,b" (fun _ => none)
      (by decide),
   C9_cli_sources_exclusive.2 none none (fun _ => none)
      (fun _ => ⟨500, .ok .null⟩) rfl rfl⟩

end LeetFetch
